import Mathlib

/-
Verification of the openvpnas-exporter collection logic
(src/exporters/openvpnas_exporter.go) against its specification.

The Go file is embedded shallowly:
  * `prometheus.Desc`, `prometheus.ValueType` and `prometheus.Metric`
    (as produced by `MustNewConstMetric`) become plain Lean structures.
  * Metric values are `float64` in Go; every value the exporter ever emits
    is `float64(i)` for an integer `i` (or the literals 0.0 / 1.0), and the
    spec (§4.3) notes these conversions are lossless below 2^53, so the
    value domain is modelled as `Int` and the conversion as `float64 := id`.
  * The xmlrpc client is modelled by its observable behaviour during one
    collection cycle: the outcome of dialing the unix socket
    (`net.Dial "unix" e.xmlrpcPath`, performed lazily by the HTTP transport
    each time `client.Call` runs) and the remote endpoint's response to each
    of the two method names. A method name is recorded in the call trace
    exactly when the request is actually issued to the remote endpoint,
    i.e. when the dial succeeds; a failed dial surfaces as the call's error
    without the method ever reaching the remote.
  * Channel sends (`ch <- m`) become an emitted-sample list, in send order;
    `Collect` returns the emitted samples together with the trace of remote
    methods that were attempted.
-/

set_option autoImplicit false

namespace OpenvpnasExporter

/-- Kinds of `prometheus.ValueType` used by the client library. -/
inductive ValueType where
  | CounterValue
  | GaugeValue
  | UntypedValue
deriving DecidableEq, Repr

/-- A `prometheus.Desc` as built by `prometheus.NewDesc(fqName, help, nil, nil)`:
the exporter uses no variable labels and no constant labels, so a descriptor
is its fully-qualified name plus help text. -/
structure Desc where
  fqName : String
  help : String
deriving DecidableEq, Repr

/-- The `prometheus.BuildFQName` function: joins namespace, subsystem and name
with underscores, skipping empty components; empty name gives the empty string. -/
def BuildFQName (ns subsystem name : String) : String :=
  if name = "" then ""
  else if ns ≠ "" ∧ subsystem ≠ "" then ns ++ "_" ++ subsystem ++ "_" ++ name
  else if ns ≠ "" then ns ++ "_" ++ name
  else if subsystem ≠ "" then subsystem ++ "_" ++ name
  else name

/-- The `prometheus.NewDesc(fqName, help, nil, nil)` constructor. -/
def NewDesc (fqName help : String) : Desc := ⟨fqName, help⟩

/-- The Go `float64(i)` conversion applied to an `int`. All values this
exporter emits stay far below 2^53, where the conversion is exact (spec §4.3),
so it is modelled as the identity on `Int`. -/
def float64 (i : Int) : Int := i

/-- A constant sample as produced by `prometheus.MustNewConstMetric(desc, vt, v)`. -/
structure Metric where
  desc : Desc
  valueType : ValueType
  value : Int
deriving DecidableEq, Repr

/-- The `prometheus.MustNewConstMetric` constructor (no labels are ever passed). -/
def MustNewConstMetric (d : Desc) (vt : ValueType) (v : Int) : Metric := ⟨d, vt, v⟩

/-- The `OpenVPNExporter` struct: the xmlrpc socket path plus the seven metric
descriptors, in the declaration order of the Go struct. -/
structure OpenVPNExporter where
  xmlrpcPath : String
  openvpnUpDesc : Desc
  openvpnStatusUpdateTimeDesc : Desc
  openvpnSubscriptionStatusUpdateTimeDesc : Desc
  openvpnSubscriptionCurrentClientConnections : Desc
  openvpnSubscriptionFallbackClientConnections : Desc
  openvpnSubscriptionMaximumClientConnections : Desc
  openvpnConnectedClientsDesc : Desc
deriving DecidableEq, Repr

/-- The `NewOpenVPNExporter` constructor. Mirrors the Go function line by
line; the Go version returns `(*OpenVPNExporter, error)` and its error result
is the literal `nil`, modelled as `Option String` being `none`. -/
def NewOpenVPNExporter (xmlrpcPath : String) : OpenVPNExporter × Option String :=
  let openvpnUpDesc := NewDesc
    (BuildFQName "openvpnas" "" "up")
    "Whether scraping OpenVPN\x27s metrics was successful."
  let openvpnStatusUpdateTimeDesc := NewDesc
    (BuildFQName "openvpnas" "" "status_update_time_seconds")
    "UNIX timestamp at which the OpenVPN statistics were updated."
  let openvpnConnectedClientsDesc := NewDesc
    (BuildFQName "openvpnas" "" "server_connected_clients")
    "Number Of Connected Clients"
  let openvpnSubscriptionStatusUpdateTimeDesc := NewDesc
    (BuildFQName "openvpnas" "" "subscription_status_update_time_seconds")
    "UNIX timestamp at which the OpenVPN subscription status was last updated."
  let openvpnSubscriptionCurrentClientConnectionsDesc := NewDesc
    (BuildFQName "openvpnas" "" "subscription_current_client_connections")
    "Number of client connections currently being used from the OpenVPN subscription."
  let openvpnSubscriptionFallbackClientConnectionsDesc := NewDesc
    (BuildFQName "openvpnas" "" "subscription_fallback_client_connections")
    "Number of fallback connections in use on the OpenVPN subscription."
  let openvpnSubscriptionMaximumClientConnectionsDesc := NewDesc
    (BuildFQName "openvpnas" "" "subscription_maximum_client_connections")
    "Maximum number of client connections allowed by the OpenVPN subscription."
  (⟨xmlrpcPath,
    openvpnUpDesc,
    openvpnStatusUpdateTimeDesc,
    openvpnSubscriptionStatusUpdateTimeDesc,
    openvpnSubscriptionCurrentClientConnectionsDesc,
    openvpnSubscriptionFallbackClientConnectionsDesc,
    openvpnSubscriptionMaximumClientConnectionsDesc,
    openvpnConnectedClientsDesc⟩, none)

/-- The decoded `GetVPNSummary` response: the Go result struct
`{ VPNSummary struct { NClients int } }`, flattened. -/
structure VPNSummary where
  NClients : Int
deriving DecidableEq, Repr

/-- The decoded `GetSubscriptionStatus` response: the Go result struct
`{ SubscriptionStatus struct { ... } }`, flattened, fields in declaration
order. `Type` is a Lean keyword, hence the trailing mark on that field. -/
structure SubscriptionStatus where
  AgentDisabled : Bool
  AgentId : String
  CcLimit : Int
  CurrentCc : Int
  Error : String
  FallbackCc : Int
  GracePeriod : Int
  LastSuccessfulUpdate : Int
  LastSuccessfulUpdateAge : Int
  MaxCc : Int
  Name : String
  NextUpdate : Int
  NextUpdateIn : Int
  Notes : List String
  Overdraft : Bool
  Server : String
  State : String
  Type' : String
  UpdatesFailed : Int
deriving DecidableEq, Repr

/-- Decidable equality for `Except`, needed to derive it for the client model. -/
instance instDecidableEqExcept {ε α : Type} [DecidableEq ε] [DecidableEq α] :
    DecidableEq (Except ε α) := fun x y =>
  match x, y with
  | .error a, .error b =>
    if h : a = b then .isTrue (by rw [h])
    else .isFalse (by intro hc; cases hc; exact h rfl)
  | .error _, .ok _ => .isFalse (by intro hc; cases hc)
  | .ok _, .error _ => .isFalse (by intro hc; cases hc)
  | .ok a, .ok b =>
    if h : a = b then .isTrue (by rw [h])
    else .isFalse (by intro hc; cases hc; exact h rfl)

/-- Observable behaviour of the remote endpoint for one cycle: what each of
the two consumed methods returns when a request reaches it (either a decoded
response, or an error covering decode failures and remote faults). -/
structure RemoteEndpoint where
  vpnSummary : Except String VPNSummary
  subscriptionStatus : Except String SubscriptionStatus
deriving DecidableEq, Repr

/-- The per-cycle xmlrpc client, modelled by its observable behaviour:
`dial` is the outcome of `net.Dial("unix", e.xmlrpcPath)`, which the HTTP
transport performs for each `Call`; `remote` is the endpoint behind the
socket. -/
structure XmlrpcClient where
  dial : Except String Unit
  remote : RemoteEndpoint
deriving DecidableEq, Repr

/-- One `client.Call("GetVPNSummary", nil, result)`: the transport first
dials the unix socket; only on a successful dial is the request issued to the
remote (recorded in the trace) and its response decoded. -/
def XmlrpcClient.callGetVPNSummary (c : XmlrpcClient) :
    Except String VPNSummary × List String :=
  match c.dial with
  | .error e => (.error e, [])
  | .ok _ => (c.remote.vpnSummary, ["GetVPNSummary"])

/-- One `client.Call("GetSubscriptionStatus", nil, result)`, same transport
behaviour as `callGetVPNSummary`. -/
def XmlrpcClient.callGetSubscriptionStatus (c : XmlrpcClient) :
    Except String SubscriptionStatus × List String :=
  match c.dial with
  | .error e => (.error e, [])
  | .ok _ => (c.remote.subscriptionStatus, ["GetSubscriptionStatus"])

/-- The `CollectVPNSummary` method: calls `GetVPNSummary`; on error it
returns the error having emitted nothing, on success it emits one Gauge
sample for connected clients and returns nil. Result:
(samples emitted, remote methods attempted, returned error). -/
def CollectVPNSummary (e : OpenVPNExporter) (client : XmlrpcClient) :
    List Metric × List String × Option String :=
  match client.callGetVPNSummary with
  | (.error err, calls) => ([], calls, some err)
  | (.ok result, calls) =>
    ([MustNewConstMetric e.openvpnConnectedClientsDesc .GaugeValue
        (float64 result.NClients)],
     calls, none)

/-- The `CollectSubscriptionStatistics` method: calls
`GetSubscriptionStatus`; on error it returns the error having emitted
nothing, on success it emits four Gauge samples (update time, current, max,
fallback, in that order) and returns nil. -/
def CollectSubscriptionStatistics (e : OpenVPNExporter) (client : XmlrpcClient) :
    List Metric × List String × Option String :=
  match client.callGetSubscriptionStatus with
  | (.error err, calls) => ([], calls, some err)
  | (.ok result, calls) =>
    ([MustNewConstMetric e.openvpnSubscriptionStatusUpdateTimeDesc .GaugeValue
        (float64 result.LastSuccessfulUpdate),
      MustNewConstMetric e.openvpnSubscriptionCurrentClientConnections .GaugeValue
        (float64 result.CurrentCc),
      MustNewConstMetric e.openvpnSubscriptionMaximumClientConnections .GaugeValue
        (float64 result.MaxCc),
      MustNewConstMetric e.openvpnSubscriptionFallbackClientConnections .GaugeValue
        (float64 result.FallbackCc)],
     calls, none)

/-- The `Collect` method: one collection cycle. Runs `CollectVPNSummary`;
on error emits up=0.0 and returns. Then runs `CollectSubscriptionStatistics`;
on error emits up=0.0 and returns. Otherwise emits up=1.0 last.
Result: (samples emitted in order, remote methods attempted in order). -/
def Collect (e : OpenVPNExporter) (client : XmlrpcClient) :
    List Metric × List String :=
  match CollectVPNSummary e client with
  | (samples1, calls1, some _) =>
    (samples1 ++ [MustNewConstMetric e.openvpnUpDesc .GaugeValue 0], calls1)
  | (samples1, calls1, none) =>
    match CollectSubscriptionStatistics e client with
    | (samples2, calls2, some _) =>
      (samples1 ++ samples2 ++ [MustNewConstMetric e.openvpnUpDesc .GaugeValue 0],
       calls1 ++ calls2)
    | (samples2, calls2, none) =>
      (samples1 ++ samples2 ++ [MustNewConstMetric e.openvpnUpDesc .GaugeValue 1],
       calls1 ++ calls2)

/-- The `Describe` method: sends exactly the `up` descriptor to the channel. -/
def Describe (e : OpenVPNExporter) : List Desc :=
  [e.openvpnUpDesc]

/-- The descriptor registry held by a constructed exporter: its `Desc` fields,
in struct declaration order. -/
def OpenVPNExporter.descriptors (e : OpenVPNExporter) : List Desc :=
  [e.openvpnUpDesc,
   e.openvpnStatusUpdateTimeDesc,
   e.openvpnSubscriptionStatusUpdateTimeDesc,
   e.openvpnSubscriptionCurrentClientConnections,
   e.openvpnSubscriptionFallbackClientConnections,
   e.openvpnSubscriptionMaximumClientConnections,
   e.openvpnConnectedClientsDesc]

/-- A sample is a health sample when it bears the exporter's `up` descriptor. -/
def isHealthSample (e : OpenVPNExporter) (m : Metric) : Bool :=
  m.desc == e.openvpnUpDesc

/-- The health samples among an emission list, in emission order. -/
def healthSamples (e : OpenVPNExporter) (ms : List Metric) : List Metric :=
  ms.filter (fun m => isHealthSample e m)

/-- The non-health samples among an emission list, in emission order. -/
def nonHealthSamples (e : OpenVPNExporter) (ms : List Metric) : List Metric :=
  ms.filter (fun m => ! isHealthSample e m)

/-- A subscription-status response with the figures of the spec §8 scenario:
current_cc=3, max_cc=10, fallback_cc=0, last_successful_update=1700000000. -/
def subStatus0 : SubscriptionStatus :=
  ⟨false, "", 0, 3, "", 0, 0, 1700000000, 0, 10, "", 0, 0, [], false, "", "", "", 0⟩

/-- A vpn-summary response with 7 connected clients (spec §8 scenario). -/
def vpn0 : VPNSummary := ⟨7⟩

/-- A client whose dial and both remote calls succeed. -/
def okClient0 : XmlrpcClient := ⟨.ok (), ⟨.ok vpn0, .ok subStatus0⟩⟩

/-- A second client with the same observable behaviour as `okClient0`. -/
def okClient1 : XmlrpcClient := ⟨.ok (), ⟨.ok vpn0, .ok subStatus0⟩⟩

/-- A client whose dial succeeds but whose first remote call fails. -/
def failCall1Client : XmlrpcClient := ⟨.ok (), ⟨.error "remote fault", .ok subStatus0⟩⟩

/-- A client whose dial and first call succeed but whose second call fails. -/
def failCall2Client : XmlrpcClient := ⟨.ok (), ⟨.ok vpn0, .error "remote fault"⟩⟩

/-- A client for which dialing the unix socket fails. -/
def failDialClient : XmlrpcClient := ⟨.error "connection refused", ⟨.ok vpn0, .ok subStatus0⟩⟩

/-- The derived `==` on `Desc` reduces to `==` on the two string fields. -/
theorem Desc.beq_mk (s1 h1 s2 h2 : String) :
    ((⟨s1, h1⟩ : Desc) == ⟨s2, h2⟩) = (s1 == s2 && h1 == h2) := by
  rw [Bool.eq_iff_iff]
  simp [beq_iff_eq, Desc.mk.injEq]

/-- C1: in every collection cycle in which both RPC calls succeed, `Collect`
emits exactly five non-health samples — the connected-clients sample from
call 1 followed by the four subscription samples from call 2 — and exactly
one health sample with value 1.0, emitted last. -/
theorem collect_success_five_nonhealth_then_health_one
    (path : String) (c : XmlrpcClient) (v : VPNSummary) (s : SubscriptionStatus)
    (hdial : c.dial = .ok ())
    (hv : c.remote.vpnSummary = .ok v)
    (hs : c.remote.subscriptionStatus = .ok s) :
    nonHealthSamples (NewOpenVPNExporter path).1 (Collect (NewOpenVPNExporter path).1 c).1 =
      [MustNewConstMetric (NewOpenVPNExporter path).1.openvpnConnectedClientsDesc
         .GaugeValue (float64 v.NClients),
       MustNewConstMetric (NewOpenVPNExporter path).1.openvpnSubscriptionStatusUpdateTimeDesc
         .GaugeValue (float64 s.LastSuccessfulUpdate),
       MustNewConstMetric (NewOpenVPNExporter path).1.openvpnSubscriptionCurrentClientConnections
         .GaugeValue (float64 s.CurrentCc),
       MustNewConstMetric (NewOpenVPNExporter path).1.openvpnSubscriptionMaximumClientConnections
         .GaugeValue (float64 s.MaxCc),
       MustNewConstMetric (NewOpenVPNExporter path).1.openvpnSubscriptionFallbackClientConnections
         .GaugeValue (float64 s.FallbackCc)] ∧
    healthSamples (NewOpenVPNExporter path).1 (Collect (NewOpenVPNExporter path).1 c).1 =
      [MustNewConstMetric (NewOpenVPNExporter path).1.openvpnUpDesc .GaugeValue 1] ∧
    (Collect (NewOpenVPNExporter path).1 c).1.getLast? =
      some (MustNewConstMetric (NewOpenVPNExporter path).1.openvpnUpDesc .GaugeValue 1) := by
  simp [Collect, CollectVPNSummary, CollectSubscriptionStatistics,
        XmlrpcClient.callGetVPNSummary, XmlrpcClient.callGetSubscriptionStatus,
        hdial, hv, hs, nonHealthSamples, healthSamples, isHealthSample,
        MustNewConstMetric, float64, NewOpenVPNExporter, NewDesc, BuildFQName,
        List.filter, Desc.beq_mk]

/-- Witness for C1: the fully successful client with 7 connected clients and
the §8 subscription figures. -/
theorem collect_success_five_nonhealth_then_health_one_witness :
    okClient0.dial = .ok () ∧
    okClient0.remote.vpnSummary = .ok vpn0 ∧
    okClient0.remote.subscriptionStatus = .ok subStatus0 ∧
    (nonHealthSamples (NewOpenVPNExporter "sock").1
        (Collect (NewOpenVPNExporter "sock").1 okClient0).1 =
      [MustNewConstMetric (NewOpenVPNExporter "sock").1.openvpnConnectedClientsDesc
         .GaugeValue 7,
       MustNewConstMetric (NewOpenVPNExporter "sock").1.openvpnSubscriptionStatusUpdateTimeDesc
         .GaugeValue 1700000000,
       MustNewConstMetric (NewOpenVPNExporter "sock").1.openvpnSubscriptionCurrentClientConnections
         .GaugeValue 3,
       MustNewConstMetric (NewOpenVPNExporter "sock").1.openvpnSubscriptionMaximumClientConnections
         .GaugeValue 10,
       MustNewConstMetric (NewOpenVPNExporter "sock").1.openvpnSubscriptionFallbackClientConnections
         .GaugeValue 0] ∧
     healthSamples (NewOpenVPNExporter "sock").1
        (Collect (NewOpenVPNExporter "sock").1 okClient0).1 =
      [MustNewConstMetric (NewOpenVPNExporter "sock").1.openvpnUpDesc .GaugeValue 1] ∧
     (Collect (NewOpenVPNExporter "sock").1 okClient0).1.getLast? =
      some (MustNewConstMetric (NewOpenVPNExporter "sock").1.openvpnUpDesc .GaugeValue 1)) :=
  ⟨rfl, rfl, rfl,
   collect_success_five_nonhealth_then_health_one "sock" okClient0 vpn0 subStatus0 rfl rfl rfl⟩

/-- C2: in every collection cycle in which the first call fails, `Collect`
emits no non-health sample and exactly one health sample with value 0.0, and
the GetSubscriptionStatus method is never attempted. -/
theorem collect_call1_failure_only_health_zero
    (path : String) (c : XmlrpcClient) (err : String)
    (h : c.callGetVPNSummary.1 = .error err) :
    (Collect (NewOpenVPNExporter path).1 c).1 =
      [MustNewConstMetric (NewOpenVPNExporter path).1.openvpnUpDesc .GaugeValue 0] ∧
    nonHealthSamples (NewOpenVPNExporter path).1 (Collect (NewOpenVPNExporter path).1 c).1 =
      [] ∧
    healthSamples (NewOpenVPNExporter path).1 (Collect (NewOpenVPNExporter path).1 c).1 =
      [MustNewConstMetric (NewOpenVPNExporter path).1.openvpnUpDesc .GaugeValue 0] ∧
    "GetSubscriptionStatus" ∉ (Collect (NewOpenVPNExporter path).1 c).2 := by
  cases hd : c.dial with
  | error msg =>
    simp [Collect, CollectVPNSummary, XmlrpcClient.callGetVPNSummary, hd,
          nonHealthSamples, healthSamples, isHealthSample, MustNewConstMetric,
          NewOpenVPNExporter, NewDesc, BuildFQName, List.filter, Desc.beq_mk]
  | ok u =>
    have hv : c.remote.vpnSummary = .error err := by
      simpa [XmlrpcClient.callGetVPNSummary, hd] using h
    simp [Collect, CollectVPNSummary, XmlrpcClient.callGetVPNSummary, hd, hv,
          nonHealthSamples, healthSamples, isHealthSample, MustNewConstMetric,
          NewOpenVPNExporter, NewDesc, BuildFQName, List.filter, Desc.beq_mk]

/-- Witness for C2: a client whose GetVPNSummary call reports a remote fault. -/
theorem collect_call1_failure_only_health_zero_witness :
    failCall1Client.callGetVPNSummary.1 = .error "remote fault" ∧
    ((Collect (NewOpenVPNExporter "sock").1 failCall1Client).1 =
      [MustNewConstMetric (NewOpenVPNExporter "sock").1.openvpnUpDesc .GaugeValue 0] ∧
     nonHealthSamples (NewOpenVPNExporter "sock").1
        (Collect (NewOpenVPNExporter "sock").1 failCall1Client).1 = [] ∧
     healthSamples (NewOpenVPNExporter "sock").1
        (Collect (NewOpenVPNExporter "sock").1 failCall1Client).1 =
      [MustNewConstMetric (NewOpenVPNExporter "sock").1.openvpnUpDesc .GaugeValue 0] ∧
     "GetSubscriptionStatus" ∉ (Collect (NewOpenVPNExporter "sock").1 failCall1Client).2) :=
  ⟨rfl, collect_call1_failure_only_health_zero "sock" failCall1Client "remote fault" rfl⟩

/-- C3: in every collection cycle in which the first call succeeds and the
second fails, `Collect` emits exactly one non-health sample — the
connected-clients gauge — and exactly one health sample with value 0.0,
emitted last. -/
theorem collect_call2_failure_one_nonhealth_then_health_zero
    (path : String) (c : XmlrpcClient) (v : VPNSummary) (err : String)
    (hdial : c.dial = .ok ())
    (hv : c.remote.vpnSummary = .ok v)
    (hs : c.remote.subscriptionStatus = .error err) :
    nonHealthSamples (NewOpenVPNExporter path).1 (Collect (NewOpenVPNExporter path).1 c).1 =
      [MustNewConstMetric (NewOpenVPNExporter path).1.openvpnConnectedClientsDesc
         .GaugeValue (float64 v.NClients)] ∧
    healthSamples (NewOpenVPNExporter path).1 (Collect (NewOpenVPNExporter path).1 c).1 =
      [MustNewConstMetric (NewOpenVPNExporter path).1.openvpnUpDesc .GaugeValue 0] ∧
    (Collect (NewOpenVPNExporter path).1 c).1.getLast? =
      some (MustNewConstMetric (NewOpenVPNExporter path).1.openvpnUpDesc .GaugeValue 0) := by
  simp [Collect, CollectVPNSummary, CollectSubscriptionStatistics,
        XmlrpcClient.callGetVPNSummary, XmlrpcClient.callGetSubscriptionStatus,
        hdial, hv, hs, nonHealthSamples, healthSamples, isHealthSample,
        MustNewConstMetric, float64, NewOpenVPNExporter, NewDesc, BuildFQName,
        List.filter, Desc.beq_mk]

/-- Witness for C3: a client whose GetSubscriptionStatus call reports a
remote fault after a successful GetVPNSummary. -/
theorem collect_call2_failure_one_nonhealth_then_health_zero_witness :
    failCall2Client.dial = .ok () ∧
    failCall2Client.remote.vpnSummary = .ok vpn0 ∧
    failCall2Client.remote.subscriptionStatus = .error "remote fault" ∧
    (nonHealthSamples (NewOpenVPNExporter "sock").1
        (Collect (NewOpenVPNExporter "sock").1 failCall2Client).1 =
      [MustNewConstMetric (NewOpenVPNExporter "sock").1.openvpnConnectedClientsDesc
         .GaugeValue 7] ∧
     healthSamples (NewOpenVPNExporter "sock").1
        (Collect (NewOpenVPNExporter "sock").1 failCall2Client).1 =
      [MustNewConstMetric (NewOpenVPNExporter "sock").1.openvpnUpDesc .GaugeValue 0] ∧
     (Collect (NewOpenVPNExporter "sock").1 failCall2Client).1.getLast? =
      some (MustNewConstMetric (NewOpenVPNExporter "sock").1.openvpnUpDesc .GaugeValue 0)) :=
  ⟨rfl, rfl, rfl,
   collect_call2_failure_one_nonhealth_then_health_zero "sock" failCall2Client vpn0
     "remote fault" rfl rfl rfl⟩

/-- C4: every collection cycle, whatever the dial and call outcomes, emits
exactly one health sample, and that sample is the last sample emitted. -/
theorem collect_exactly_one_health_sample_emitted_last
    (path : String) (c : XmlrpcClient) :
    ∃ m : Metric,
      healthSamples (NewOpenVPNExporter path).1 (Collect (NewOpenVPNExporter path).1 c).1 =
        [m] ∧
      (Collect (NewOpenVPNExporter path).1 c).1.getLast? = some m ∧
      isHealthSample (NewOpenVPNExporter path).1 m = true := by
  rcases c with ⟨dial, vpn, sub⟩
  cases dial with
  | error msg =>
    exact ⟨MustNewConstMetric (NewOpenVPNExporter path).1.openvpnUpDesc .GaugeValue 0,
      by simp [Collect, CollectVPNSummary, XmlrpcClient.callGetVPNSummary,
               healthSamples, isHealthSample, MustNewConstMetric, NewOpenVPNExporter,
               NewDesc, BuildFQName, List.filter, Desc.beq_mk],
      by simp [Collect, CollectVPNSummary, XmlrpcClient.callGetVPNSummary,
               MustNewConstMetric, NewOpenVPNExporter, NewDesc, BuildFQName],
      by simp [isHealthSample, MustNewConstMetric]⟩
  | ok u =>
    cases vpn with
    | error msg =>
      exact ⟨MustNewConstMetric (NewOpenVPNExporter path).1.openvpnUpDesc .GaugeValue 0,
        by simp [Collect, CollectVPNSummary, XmlrpcClient.callGetVPNSummary,
                 healthSamples, isHealthSample, MustNewConstMetric, NewOpenVPNExporter,
                 NewDesc, BuildFQName, List.filter, Desc.beq_mk],
        by simp [Collect, CollectVPNSummary, XmlrpcClient.callGetVPNSummary,
                 MustNewConstMetric, NewOpenVPNExporter, NewDesc, BuildFQName],
        by simp [isHealthSample, MustNewConstMetric]⟩
    | ok v =>
      cases sub with
      | error msg =>
        exact ⟨MustNewConstMetric (NewOpenVPNExporter path).1.openvpnUpDesc .GaugeValue 0,
          by simp [Collect, CollectVPNSummary, CollectSubscriptionStatistics,
                   XmlrpcClient.callGetVPNSummary, XmlrpcClient.callGetSubscriptionStatus,
                   healthSamples, isHealthSample, MustNewConstMetric, NewOpenVPNExporter,
                   NewDesc, BuildFQName, List.filter, Desc.beq_mk],
          by simp [Collect, CollectVPNSummary, CollectSubscriptionStatistics,
                   XmlrpcClient.callGetVPNSummary, XmlrpcClient.callGetSubscriptionStatus,
                   MustNewConstMetric, NewOpenVPNExporter, NewDesc, BuildFQName],
          by simp [isHealthSample, MustNewConstMetric]⟩
      | ok s =>
        exact ⟨MustNewConstMetric (NewOpenVPNExporter path).1.openvpnUpDesc .GaugeValue 1,
          by simp [Collect, CollectVPNSummary, CollectSubscriptionStatistics,
                   XmlrpcClient.callGetVPNSummary, XmlrpcClient.callGetSubscriptionStatus,
                   healthSamples, isHealthSample, MustNewConstMetric, NewOpenVPNExporter,
                   NewDesc, BuildFQName, List.filter, Desc.beq_mk],
          by simp [Collect, CollectVPNSummary, CollectSubscriptionStatistics,
                   XmlrpcClient.callGetVPNSummary, XmlrpcClient.callGetSubscriptionStatus,
                   MustNewConstMetric, NewOpenVPNExporter, NewDesc, BuildFQName],
          by simp [isHealthSample, MustNewConstMetric]⟩

/-- C5: in every cycle where dialing the unix socket fails, the cycle emits
exactly the health=0.0 sample, no other sample, and no request ever reaches
the remote endpoint — neither RPC method is attempted. -/
theorem collect_dial_failure_only_health_zero_no_remote_calls
    (path : String) (c : XmlrpcClient) (msg : String)
    (h : c.dial = .error msg) :
    (Collect (NewOpenVPNExporter path).1 c).1 =
      [MustNewConstMetric (NewOpenVPNExporter path).1.openvpnUpDesc .GaugeValue 0] ∧
    nonHealthSamples (NewOpenVPNExporter path).1 (Collect (NewOpenVPNExporter path).1 c).1 =
      [] ∧
    (Collect (NewOpenVPNExporter path).1 c).2 = [] := by
  simp [Collect, CollectVPNSummary, XmlrpcClient.callGetVPNSummary, h,
        nonHealthSamples, healthSamples, isHealthSample, MustNewConstMetric,
        NewOpenVPNExporter, NewDesc, BuildFQName, List.filter, Desc.beq_mk]

/-- Witness for C5: a client whose unix-socket dial is refused. -/
theorem collect_dial_failure_only_health_zero_no_remote_calls_witness :
    failDialClient.dial = .error "connection refused" ∧
    ((Collect (NewOpenVPNExporter "sock").1 failDialClient).1 =
      [MustNewConstMetric (NewOpenVPNExporter "sock").1.openvpnUpDesc .GaugeValue 0] ∧
     nonHealthSamples (NewOpenVPNExporter "sock").1
        (Collect (NewOpenVPNExporter "sock").1 failDialClient).1 = [] ∧
     (Collect (NewOpenVPNExporter "sock").1 failDialClient).2 = []) :=
  ⟨rfl, collect_dial_failure_only_health_zero_no_remote_calls "sock" failDialClient
    "connection refused" rfl⟩

/-- No collection cycle ever emits a sample bearing the
status_update_time_seconds descriptor: the descriptor is constructed and
stored but `Collect` never references it. -/
theorem statusUpdateTimeDesc_not_emitted (path : String) (c : XmlrpcClient) :
    (NewOpenVPNExporter path).1.openvpnStatusUpdateTimeDesc ∉
      ((Collect (NewOpenVPNExporter path).1 c).1.map Metric.desc) := by
  rcases c with ⟨dial, vpn, sub⟩
  cases dial with
  | error msg =>
    simp [Collect, CollectVPNSummary, XmlrpcClient.callGetVPNSummary,
          MustNewConstMetric, NewOpenVPNExporter, NewDesc, BuildFQName, Desc.mk.injEq]
  | ok u =>
    cases vpn with
    | error msg =>
      simp [Collect, CollectVPNSummary, XmlrpcClient.callGetVPNSummary,
            MustNewConstMetric, NewOpenVPNExporter, NewDesc, BuildFQName, Desc.mk.injEq]
    | ok v =>
      cases sub with
      | error msg =>
        simp [Collect, CollectVPNSummary, CollectSubscriptionStatistics,
              XmlrpcClient.callGetVPNSummary, XmlrpcClient.callGetSubscriptionStatus,
              MustNewConstMetric, NewOpenVPNExporter, NewDesc, BuildFQName, Desc.mk.injEq]
      | ok s =>
        simp [Collect, CollectVPNSummary, CollectSubscriptionStatistics,
              XmlrpcClient.callGetVPNSummary, XmlrpcClient.callGetSubscriptionStatus,
              MustNewConstMetric, NewOpenVPNExporter, NewDesc, BuildFQName, Desc.mk.injEq]

/-- C6 counterexample: there is no cycle — successful or not — of any
constructed exporter whose emissions contain a sample bearing the
status_update_time_seconds descriptor. -/
theorem status_update_time_sample_exists_false :
    ¬ ∃ (path : String) (c : XmlrpcClient),
      (NewOpenVPNExporter path).1.openvpnStatusUpdateTimeDesc ∈
        ((Collect (NewOpenVPNExporter path).1 c).1.map Metric.desc) := by
  rintro ⟨path, c, hmem⟩
  exact statusUpdateTimeDesc_not_emitted path c hmem

/-- C6 amended: the exporter constructs and holds the
status_update_time_seconds descriptor in its registry, but no collection
cycle ever emits a sample bearing it. -/
theorem status_update_time_desc_held_but_never_emitted
    (path : String) (c : XmlrpcClient) :
    (NewOpenVPNExporter path).1.openvpnStatusUpdateTimeDesc ∈
      (NewOpenVPNExporter path).1.descriptors ∧
    (NewOpenVPNExporter path).1.openvpnStatusUpdateTimeDesc ∉
      ((Collect (NewOpenVPNExporter path).1 c).1.map Metric.desc) := by
  exact ⟨by simp [OpenVPNExporter.descriptors], statusUpdateTimeDesc_not_emitted path c⟩

/-- C7: in every cycle in which GetSubscriptionStatus succeeds,
`CollectSubscriptionStatistics` emits exactly four Gauge samples in the fixed
order update-time, current, max, fallback, each value the decoded integer
field unchanged, and returns no error. -/
theorem collectSubscriptionStatistics_success_four_samples
    (path : String) (c : XmlrpcClient) (s : SubscriptionStatus)
    (hdial : c.dial = .ok ())
    (hs : c.remote.subscriptionStatus = .ok s) :
    CollectSubscriptionStatistics (NewOpenVPNExporter path).1 c =
      ([MustNewConstMetric (NewOpenVPNExporter path).1.openvpnSubscriptionStatusUpdateTimeDesc
          .GaugeValue (float64 s.LastSuccessfulUpdate),
        MustNewConstMetric (NewOpenVPNExporter path).1.openvpnSubscriptionCurrentClientConnections
          .GaugeValue (float64 s.CurrentCc),
        MustNewConstMetric (NewOpenVPNExporter path).1.openvpnSubscriptionMaximumClientConnections
          .GaugeValue (float64 s.MaxCc),
        MustNewConstMetric (NewOpenVPNExporter path).1.openvpnSubscriptionFallbackClientConnections
          .GaugeValue (float64 s.FallbackCc)],
       ["GetSubscriptionStatus"], none) := by
  simp [CollectSubscriptionStatistics, XmlrpcClient.callGetSubscriptionStatus, hdial, hs]

/-- Witness for C7: the §8 scenario figures current_cc=3, max_cc=10,
fallback_cc=0, last_successful_update=1700000000 give exactly those four
values, in order. -/
theorem collectSubscriptionStatistics_success_four_samples_witness :
    okClient0.dial = .ok () ∧
    okClient0.remote.subscriptionStatus = .ok subStatus0 ∧
    CollectSubscriptionStatistics (NewOpenVPNExporter "sock").1 okClient0 =
      ([MustNewConstMetric (NewOpenVPNExporter "sock").1.openvpnSubscriptionStatusUpdateTimeDesc
          .GaugeValue 1700000000,
        MustNewConstMetric (NewOpenVPNExporter "sock").1.openvpnSubscriptionCurrentClientConnections
          .GaugeValue 3,
        MustNewConstMetric (NewOpenVPNExporter "sock").1.openvpnSubscriptionMaximumClientConnections
          .GaugeValue 10,
        MustNewConstMetric (NewOpenVPNExporter "sock").1.openvpnSubscriptionFallbackClientConnections
          .GaugeValue 0],
       ["GetSubscriptionStatus"], none) :=
  ⟨rfl, rfl,
   collectSubscriptionStatistics_success_four_samples "sock" okClient0 subStatus0 rfl rfl⟩

/-- C8 counterexample: the registry of a constructed exporter holds seven
descriptors, not eight. -/
theorem newOpenVPNExporter_descriptors_not_eight :
    ¬ ((NewOpenVPNExporter "/var/run/sock").1.descriptors.length = 8) := by
  decide

/-- C8 amended: `NewOpenVPNExporter` has no failure modes — for every input
path it returns the exporter and a nil error — and the constructed registry
consists of the seven fixed metric descriptors, fully determined by the
input path. -/
theorem newOpenVPNExporter_total_seven_descriptors (path : String) :
    (NewOpenVPNExporter path).2 = none ∧
    (NewOpenVPNExporter path).1.xmlrpcPath = path ∧
    (NewOpenVPNExporter path).1.descriptors =
      [NewDesc (BuildFQName "openvpnas" "" "up")
         "Whether scraping OpenVPN\x27s metrics was successful.",
       NewDesc (BuildFQName "openvpnas" "" "status_update_time_seconds")
         "UNIX timestamp at which the OpenVPN statistics were updated.",
       NewDesc (BuildFQName "openvpnas" "" "subscription_status_update_time_seconds")
         "UNIX timestamp at which the OpenVPN subscription status was last updated.",
       NewDesc (BuildFQName "openvpnas" "" "subscription_current_client_connections")
         "Number of client connections currently being used from the OpenVPN subscription.",
       NewDesc (BuildFQName "openvpnas" "" "subscription_fallback_client_connections")
         "Number of fallback connections in use on the OpenVPN subscription.",
       NewDesc (BuildFQName "openvpnas" "" "subscription_maximum_client_connections")
         "Maximum number of client connections allowed by the OpenVPN subscription.",
       NewDesc (BuildFQName "openvpnas" "" "server_connected_clients")
         "Number Of Connected Clients"] ∧
    (NewOpenVPNExporter path).1.descriptors.length = 7 :=
  ⟨rfl, rfl, rfl, rfl⟩

/-- C9: the collection cycle is deterministic in the observable remote
behaviour: two cycles of the same exporter against clients with identical
dial outcomes and identical remote responses emit identical sample lists and
identical call traces — no hidden state is carried between cycles. -/
theorem collect_deterministic_no_hidden_state
    (path : String) (c1 c2 : XmlrpcClient)
    (hdial : c1.dial = c2.dial) (hremote : c1.remote = c2.remote) :
    Collect (NewOpenVPNExporter path).1 c1 = Collect (NewOpenVPNExporter path).1 c2 := by
  have h : c1 = c2 := by
    cases c1
    cases c2
    simp_all
  rw [h]

/-- Witness for C9: two separately built clients with the same observable
behaviour yield identical cycle output. -/
theorem collect_deterministic_no_hidden_state_witness :
    okClient0.dial = okClient1.dial ∧
    okClient0.remote = okClient1.remote ∧
    Collect (NewOpenVPNExporter "sock").1 okClient0 =
      Collect (NewOpenVPNExporter "sock").1 okClient1 :=
  ⟨rfl, rfl, collect_deterministic_no_hidden_state "sock" okClient0 okClient1 rfl rfl⟩

/-- C10: `Describe` announces exactly one descriptor — the health (up)
descriptor — and none of the other six descriptors the exporter holds. -/
theorem describe_announces_only_up_desc (path : String) :
    Describe (NewOpenVPNExporter path).1 = [(NewOpenVPNExporter path).1.openvpnUpDesc] ∧
    (Describe (NewOpenVPNExporter path).1).length = 1 ∧
    (NewOpenVPNExporter path).1.openvpnStatusUpdateTimeDesc ∉
      Describe (NewOpenVPNExporter path).1 ∧
    (NewOpenVPNExporter path).1.openvpnSubscriptionStatusUpdateTimeDesc ∉
      Describe (NewOpenVPNExporter path).1 ∧
    (NewOpenVPNExporter path).1.openvpnSubscriptionCurrentClientConnections ∉
      Describe (NewOpenVPNExporter path).1 ∧
    (NewOpenVPNExporter path).1.openvpnSubscriptionFallbackClientConnections ∉
      Describe (NewOpenVPNExporter path).1 ∧
    (NewOpenVPNExporter path).1.openvpnSubscriptionMaximumClientConnections ∉
      Describe (NewOpenVPNExporter path).1 ∧
    (NewOpenVPNExporter path).1.openvpnConnectedClientsDesc ∉
      Describe (NewOpenVPNExporter path).1 := by
  refine ⟨rfl, rfl, ?_, ?_, ?_, ?_, ?_, ?_⟩ <;>
    simp [Describe, NewOpenVPNExporter, NewDesc, BuildFQName, Desc.mk.injEq]

end OpenvpnasExporter
